import Mathlib

/-!
Verification of the MulticopterSim pawn lifecycle against its source.

Shallow embedding of `Source/MulticopterSim/VehiclePawn.cpp` (the consumer-side
pawn: BeginPlay / Tick / EndPlay, threaded-worker start/stop, kinematics read,
animation and gimbal effects) and of the BigQuad frame factory appended to
`Source/MulticopterSim/TargetPawn.h`.

Machine floats in the source are modelled by rationals; the flight manager's
published snapshot (location, rotation, per-motor values, crashed flag) and the
gimbal angles are inputs supplied per tick, since the dynamics thread producing
them lives outside the pawn.  State mutations on the engine (actor pose, audio
parameters, prop-mesh rotations, worker creation and destruction) are recorded
both in the pawn-state record and in an explicit per-call event list.
-/

set_option maxHeartbeats 1000000

namespace MulticopterSim

abbrev Q : Type := ℚ

/-- FVector: an engine 3-vector (rational components in the model). -/
structure Vec3 where
  x : Q
  y : Q
  z : Q
deriving DecidableEq, Repr

/-- FRotator: an engine rotation given by pitch, yaw and roll. -/
structure Rot3 where
  pitch : Q
  yaw : Q
  roll : Q
deriving DecidableEq, Repr

/-- Vehicle frame data used by the pawn: motor count and per-motor spin
directions, as read from `frame.nmotors` / `frame.motordirs` in the source. -/
structure Frame where
  nmotors : Nat
  motordirs : List Int
deriving DecidableEq, Repr

/-- Opaque flight-manager parameter block (`params` in `VehiclePawn.cpp`);
its contents are never inspected by the pawn code under verification. -/
structure Params where
  raw : Nat
deriving DecidableEq, Repr

/-- Handle state of the flight-manager worker as created by
`FFlightManager::create(frame, params, startLocation, startRotation)`:
the creation arguments seed the worker. -/
structure FFlightManager where
  frame : Frame
  params : Params
  startLocation : Vec3
  startRotation : Rot3
deriving DecidableEq, Repr

/-- Handle state of the video worker as created by
`FVideoManager::create(camera1RenderTarget, camera2RenderTarget)`;
render targets are opaque identifiers. -/
structure FVideoManager where
  camera1RenderTarget : Nat
  camera2RenderTarget : Nat
deriving DecidableEq, Repr

def FFlightManager.create (frame : Frame) (params : Params)
    (startLocation : Vec3) (startRotation : Rot3) : FFlightManager :=
  ⟨frame, params, startLocation, startRotation⟩

def FVideoManager.create (camera1RenderTarget camera2RenderTarget : Nat) :
    FVideoManager :=
  ⟨camera1RenderTarget, camera2RenderTarget⟩

/-- Modelled from the spec: `FThreadedWorker::stopThreadedWorker` is not under
src/ (only its caller `AVehiclePawn::stopThreadedWorkers` is).  The spec's
worker-lifecycle contract says stop "signals the context to terminate,
joins/waits for it to fully exit, releases its owned resources, and returns a
null handle so the caller cannot reuse a dead worker", and is a safe no-op on a
handle that was never created.  The handle is an `Option`; stop always returns
the null handle. -/
def FThreadedWorker.stopThreadedWorker {W : Type} : Option W → Option W :=
  fun _ => none

/-- Observable side effects of one pawn call on the engine / host. -/
inductive Event where
  | errorMsg (msg : String)
  | workersStarted
  | stopInvoked (fmLive : Bool) (vmLive : Bool)
  | kinRead
  | setActorLoc (v : Vec3)
  | setActorRot (r : Rot3)
  | audioParam (name : String) (value : Q)
  | propRotSet (j : Nat) (yaw : Q)
  | gimbalSet (roll : Q) (pitch : Q)
  | videoGrab
  | debugMsg
deriving DecidableEq, Repr

/-- Per-instance pawn state: the fields of `AVehiclePawn` touched by the code
under verification, plus the engine-side actor pose, audio parameters and the
FPV spring-arm rotation the pawn mutates. -/
structure PawnState where
  frame : Frame
  params : Params
  camera1RenderTarget : Nat
  camera2RenderTarget : Nat
  mapSelected : Bool
  startLocation : Vec3
  startRotation : Rot3
  flightManager : Option FFlightManager
  videoManager : Option FVideoManager
  actorLocation : Vec3
  actorRotation : Rot3
  motorvals : List Q
  audioPitch : Q
  audioVolume : Q
  audioPlaying : Bool
  fpvSpringArmRotation : Rot3
deriving DecidableEq, Repr

/-- Process-wide static variables: the `static uint64_t count` in
`AVehiclePawn::Tick` and the `static float rotation` in
`AVehiclePawn::addAnimationEffects`.  They are shared by every pawn instance
in the process and are never reset by any pawn operation. -/
structure Statics where
  tickCount : Nat
  propRotation : Q
deriving DecidableEq, Repr

/-- Statics at process start (zero-initialized C++ statics). -/
def statics0 : Statics := ⟨0, 0⟩

/-- Pawn state as produced by the `AVehiclePawn` constructor: no map selected
yet, no workers, motor-value buffer allocated; the actor pose is wherever the
editor placed the pawn. -/
def initialPawn (frame : Frame) (params : Params)
    (camera1RenderTarget camera2RenderTarget : Nat)
    (actorLocation : Vec3) (actorRotation : Rot3) : PawnState :=
  { frame := frame
    params := params
    camera1RenderTarget := camera1RenderTarget
    camera2RenderTarget := camera2RenderTarget
    mapSelected := false
    startLocation := ⟨0, 0, 0⟩
    startRotation := ⟨0, 0, 0⟩
    flightManager := none
    videoManager := none
    actorLocation := actorLocation
    actorRotation := actorRotation
    motorvals := List.replicate frame.nmotors 0
    audioPitch := 0
    audioVolume := 0
    audioPlaying := false
    fpvSpringArmRotation := ⟨0, 0, 0⟩ }

/-- Result of one `FFlightManager::getKinematics` call, supplied by the
dynamics thread (outside the pawn): the published snapshot fields and the
crashed flag. -/
structure KinResult where
  location : Vec3
  rotation : Rot3
  motorvals : List Q
  crashed : Bool
deriving DecidableEq, Repr

/-- Everything one `Tick` consumes from outside the pawn: the kinematics
snapshot and the gimbal angles from the flight manager. -/
structure TickInput where
  kin : KinResult
  gimbalRoll : Q
  gimbalPitch : Q
deriving DecidableEq, Repr

/-- `AVehiclePawn::startThreadedWorkers`: create the flight manager from
`(frame, params, _startLocation, _startRotation)` and the video manager from
the two camera render targets. -/
def startThreadedWorkers (s : PawnState) : PawnState × List Event :=
  ({ s with
      flightManager := some
        (FFlightManager.create s.frame s.params s.startLocation s.startRotation)
      videoManager := some
        (FVideoManager.create s.camera1RenderTarget s.camera2RenderTarget) },
   [Event.workersStarted])

/-- `AVehiclePawn::stopThreadedWorkers`: both stored handles are overwritten
with the return value of `FThreadedWorker::stopThreadedWorker`.  The event
records whether each handle was live at the moment stop was invoked. -/
def stopThreadedWorkers (s : PawnState) : PawnState × List Event :=
  ({ s with
      flightManager := FThreadedWorker.stopThreadedWorker s.flightManager
      videoManager := FThreadedWorker.stopThreadedWorker s.videoManager },
   [Event.stopInvoked s.flightManager.isSome s.videoManager.isSome])

/-- Substring helper, prefix-match step of `FString::Contains`. -/
def listHasPre : List Char → List Char → Bool
  | [], _ => true
  | _ :: _, [] => false
  | a :: as, b :: bs => a == b && listHasPre as bs

/-- Substring helper: does `needle` occur contiguously inside `hay`?
Models `FString::Contains` on the characters of the strings. -/
def listHasSub (needle : List Char) : List Char → Bool
  | [] => needle.isEmpty
  | b :: bs => listHasPre needle (b :: bs) || listHasSub needle bs

/-- `FString::Contains(needle)`: UE4's default search case is
`ESearchCase::IgnoreCase`, so the engine call is a case-insensitive substring
search — both sides are compared after case folding. -/
def fstringContains (hay needle : String) : Bool :=
  listHasSub (needle.toList.map Char.toLower) (hay.toList.map Char.toLower)

/-- `AVehiclePawn::BeginPlay`: the map counts as selected iff the world's map
name does not contain "Untitled".  If selected: start the propeller audio,
capture the actor's current pose as the ground-truth start pose, and start the
threaded workers.  Otherwise surface the "NO MAP SELECTED" error. -/
def beginPlay (mapName : String) (s : PawnState) : PawnState × List Event :=
  let mapSelected := !(fstringContains mapName "Untitled")
  if mapSelected then
    let s1 := { s with
      mapSelected := true
      audioPlaying := true
      startLocation := s.actorLocation
      startRotation := s.actorRotation }
    startThreadedWorkers s1
  else
    ({ s with mapSelected := false }, [Event.errorMsg "NO MAP SELECTED"])

/-- `AVehiclePawn::EndPlay`: stop the threaded workers, but only when a map
was selected (otherwise none were ever created). -/
def endPlay (s : PawnState) : PawnState × List Event :=
  if s.mapSelected then stopThreadedWorkers s else (s, [])

/-- `AVehiclePawn::getKinematics`: read the snapshot from the flight manager
(location, rotation, motor values, crashed); on crashed, restart the threaded
workers (stop then start); finally set the actor's location and rotation to
the values read. -/
def getKinematics (s : PawnState) (k : KinResult) : PawnState × List Event :=
  let s1 := { s with motorvals := k.motorvals }
  let restarted :=
    if k.crashed then
      let r1 := stopThreadedWorkers s1
      let r2 := startThreadedWorkers r1.1
      (r2.1, r1.2 ++ r2.2)
    else (s1, [])
  ({ restarted.1 with actorLocation := k.location, actorRotation := k.rotation },
   Event.kinRead :: restarted.2 ++
     [Event.setActorLoc k.location, Event.setActorRot k.rotation])

/-- Sum of the first `n` motor values, as the loop in
`AVehiclePawn::addAnimationEffects` computes it. -/
def motorSum (vals : List Q) : Nat → Q
  | 0 => 0
  | n + 1 => motorSum vals n + vals.getD n 0

/-- The mean motor value `motormean` of `AVehiclePawn::addAnimationEffects`. -/
def motorMean (vals : List Q) (n : Nat) : Q :=
  motorSum vals n / (n : Q)

/-- `AVehiclePawn::setAudioPitchAndVolume`: set the audio component's "pitch"
and "volume" float parameters to the given value. -/
def setAudioPitchAndVolume (s : PawnState) (value : Q) : PawnState × List Event :=
  ({ s with audioPitch := value, audioVolume := value },
   [Event.audioParam "pitch" value, Event.audioParam "volume" value])

/-- `AVehiclePawn::addAnimationEffects`: modulate the propeller audio by the
mean motor value; when the mean is strictly positive, set each prop mesh's
relative rotation to yaw `rotation * motordirs[j] * 100` (where `rotation` is
the process-wide static) and then increment the static. -/
def addAnimationEffects (s : PawnState) (g : Statics) :
    PawnState × Statics × List Event :=
  let motormean := motorMean s.motorvals s.frame.nmotors
  let a := setAudioPitchAndVolume s motormean
  if motormean > 0 then
    let propEvents := (List.range s.frame.nmotors).map fun j =>
      Event.propRotSet j (g.propRotation * ((s.frame.motordirs.getD j 0 : Int) : Q) * 100)
    (a.1, { g with propRotation := g.propRotation + 1 }, a.2 ++ propEvents)
  else
    (a.1, g, a.2)

/-- `AVehiclePawn::setGimbal`: add the flight manager's gimbal roll to (and
subtract its pitch from) the FPV spring arm's rotation. -/
def setGimbal (s : PawnState) (roll pitch : Q) : PawnState × List Event :=
  let r := s.fpvSpringArmRotation
  ({ s with fpvSpringArmRotation :=
      { r with roll := r.roll + roll, pitch := r.pitch - pitch } },
   [Event.gimbalSet roll pitch])

/-- `AVehiclePawn::Tick`: guarded by `_mapSelected && count++ > 10` where
`count` is the process-wide static `uint64_t`.  Short-circuit: the counter is
not touched when no map is selected.  When the guard passes: read kinematics,
add animation effects, move the gimbal, grab the camera image, print worker
debug output. -/
def tick (s : PawnState) (g : Statics) (inp : TickInput) :
    PawnState × Statics × List Event :=
  if s.mapSelected then
    let g1 : Statics := { g with tickCount := (g.tickCount + 1) % 2 ^ 64 }
    if g.tickCount > 10 then
      let k := getKinematics s inp.kin
      let a := addAnimationEffects k.1 g1
      let gm := setGimbal a.1 inp.gimbalRoll inp.gimbalPitch
      (gm.1, a.2.1, k.2 ++ a.2.2 ++ gm.2 ++ [Event.videoGrab, Event.debugMsg])
    else
      (s, g1, [])
  else
    (s, g, [])

/-- Run a sequence of engine ticks, threading pawn state, process statics and
the concatenated event trace. -/
def runTicks (s : PawnState) (g : Statics) :
    List TickInput → PawnState × Statics × List Event
  | [] => (s, g, [])
  | inp :: rest =>
    let t := tick s g inp
    let r := runTicks t.1 t.2.1 rest
    (r.1, r.2.1, t.2.2 ++ r.2.2)

/-! ### The BigQuad frame variant and the dynamics factory
(from the BigQuad section of `Source/MulticopterSim/TargetPawn.h`) -/

/-- The physical-constant interface of `MultirotorDynamics` filled in by a
concrete frame variant: thrust coefficient `b`, drag coefficient `d`, mass
`m`, arm length `l`, principal inertias `Ix Iy Iz`, rotor inertia `Jr`, max
rotor RPM, plus the frame's motor count and motor-direction table. -/
structure MultirotorDynamics where
  b : Q
  d : Q
  m : Q
  l : Q
  Ix : Q
  Iy : Q
  Iz : Q
  Jr : Q
  maxrpm : Nat
  nmotors : Nat
  motordirs : List Int
deriving DecidableEq, Repr

/-- Modelled from the spec: `QuadXAPDynamics`, the parent of
`BigQuadDynamics`, is not under src/.  Per the spec's VehicleFrame data model
("motor count, motor spin directions (±1 per motor)") a quad-X frame has four
motors; this is its motor count. -/
def quadXAPNMotors : Nat := 4

/-- Modelled from the spec: the motor-direction table supplied by
`QuadXAPDynamics` (not under src/) — one ±1 spin direction per motor, in the
alternating quad-X pattern. -/
def quadXAPMotorDirections : List Int := [1, -1, -1, 1]

/-- `BigQuadDynamics` (appended to `TargetPawn.h`): the concrete frame variant
overriding the physical constants; the motor count and direction table come
from its `QuadXAPDynamics` parent. -/
def BigQuadDynamics : MultirotorDynamics :=
  { b := 0.0000530216718361085
    d := 2.23656692806239e-6
    m := 16.47
    l := 0.6
    Ix := 2
    Iy := 2
    Iz := 3
    Jr := 0.000308013
    maxrpm := 10000
    nmotors := quadXAPNMotors
    motordirs := quadXAPMotorDirections }

/-- `MultirotorDynamics::create`: the factory returns a new
`BigQuadDynamics`. -/
def MultirotorDynamics.create : MultirotorDynamics := BigQuadDynamics

/-! ### Trace helpers -/

def isKinRead : Event → Bool
  | Event.kinRead => true
  | _ => false

/-- Number of kinematics reads recorded in a trace. -/
def countKinReads (evs : List Event) : Nat := (evs.filter isKinRead).length

def isStopInvoked : Event → Bool
  | Event.stopInvoked _ _ => true
  | _ => false

/-- Whether a trace contains any worker-stop invocation. -/
def hasStopEvent (evs : List Event) : Bool := evs.any isStopInvoked

/-- Every worker-stop invocation in the trace found both handles live
(freshly created, not yet nulled). -/
def stopFlagsOk : List Event → Bool
  | [] => true
  | Event.stopInvoked fm vm :: rest => fm && vm && stopFlagsOk rest
  | _ :: rest => stopFlagsOk rest

def isPropRotSet : Event → Bool
  | Event.propRotSet _ _ => true
  | _ => false

/-- The prop-mesh rotation events of a trace. -/
def propEventsOf (evs : List Event) : List Event := evs.filter isPropRotSet

/-- Each prop-rotation event's yaw sign agrees with the motor-direction table:
a positive direction never gets a negative yaw and vice versa. -/
def propSignsOk (dirs : List Int) (evs : List Event) : Bool :=
  evs.all fun e =>
    match e with
    | Event.propRotSet j y =>
        decide ((0 < dirs.getD j 0 → 0 ≤ y) ∧ (dirs.getD j 0 < 0 → y ≤ 0))
    | _ => true

/-! ### Preservation infrastructure -/

/-- The pawn fields that no operation after construction may change, except
that `beginPlay` sets `mapSelected` and the start pose once. -/
def SameCore (s t : PawnState) : Prop :=
  t.frame = s.frame ∧ t.params = s.params ∧
  t.camera1RenderTarget = s.camera1RenderTarget ∧
  t.camera2RenderTarget = s.camera2RenderTarget ∧
  t.mapSelected = s.mapSelected ∧
  t.startLocation = s.startLocation ∧ t.startRotation = s.startRotation

theorem sameCore_refl (s : PawnState) : SameCore s s := by
  simp [SameCore]

theorem sameCore_trans {s t u : PawnState} (h1 : SameCore s t) (h2 : SameCore t u) :
    SameCore s u := by
  obtain ⟨a1, a2, a3, a4, a5, a6, a7⟩ := h1
  obtain ⟨b1, b2, b3, b4, b5, b6, b7⟩ := h2
  exact ⟨b1.trans a1, b2.trans a2, b3.trans a3, b4.trans a4,
    b5.trans a5, b6.trans a6, b7.trans a7⟩

theorem getKinematics_sameCore (s : PawnState) (k : KinResult) :
    SameCore s (getKinematics s k).1 := by
  cases hc : k.crashed <;>
    simp [SameCore, getKinematics, stopThreadedWorkers, startThreadedWorkers, hc]

theorem addAnimationEffects_sameCore (s : PawnState) (g : Statics) :
    SameCore s (addAnimationEffects s g).1 := by
  unfold addAnimationEffects
  by_cases h : motorMean s.motorvals s.frame.nmotors > 0 <;>
    simp [SameCore, setAudioPitchAndVolume, h]

theorem setGimbal_sameCore (s : PawnState) (roll pitch : Q) :
    SameCore s (setGimbal s roll pitch).1 := by
  simp [SameCore, setGimbal]

theorem tick_sameCore (s : PawnState) (g : Statics) (inp : TickInput) :
    SameCore s (tick s g inp).1 := by
  unfold tick
  by_cases hm : s.mapSelected = true
  · by_cases hc : g.tickCount > 10
    · simpa [hm, hc] using
        sameCore_trans
          (sameCore_trans (getKinematics_sameCore s inp.kin)
            (addAnimationEffects_sameCore (getKinematics s inp.kin).1
              { g with tickCount := (g.tickCount + 1) % 2 ^ 64 }))
          (setGimbal_sameCore
            (addAnimationEffects (getKinematics s inp.kin).1
              { g with tickCount := (g.tickCount + 1) % 2 ^ 64 }).1
            inp.gimbalRoll inp.gimbalPitch)
    · simp [hm, hc, sameCore_refl]
  · simp [hm, sameCore_refl]

theorem runTicks_sameCore (l : List TickInput) (s : PawnState) (g : Statics) :
    SameCore s (runTicks s g l).1 := by
  induction l generalizing s g with
  | nil => simp [runTicks, sameCore_refl]
  | cons inp rest ih =>
    exact sameCore_trans (tick_sameCore s g inp)
      (ih (tick s g inp).1 (tick s g inp).2.1)

/-- Invariant: while a map is selected, both worker handles are exactly the
freshly created ones, the flight manager seeded with the pawn's stored start
pose. -/
def WorkersInv (s : PawnState) : Prop :=
  s.mapSelected = true →
    s.flightManager = some
      (FFlightManager.create s.frame s.params s.startLocation s.startRotation) ∧
    s.videoManager = some
      (FVideoManager.create s.camera1RenderTarget s.camera2RenderTarget)

theorem getKinematics_workersInv (s : PawnState) (k : KinResult)
    (h : WorkersInv s) : WorkersInv (getKinematics s k).1 := by
  intro hm
  have hcore := getKinematics_sameCore s k
  obtain ⟨h1, h2, h3, h4, h5, h6, h7⟩ := hcore
  have hm0 : s.mapSelected = true := h5 ▸ hm
  cases hc : k.crashed <;>
    simp [getKinematics, stopThreadedWorkers, startThreadedWorkers, hc, h1, h2,
      h3, h4, h6, h7] <;>
    simpa [getKinematics, stopThreadedWorkers, startThreadedWorkers, hc]
      using h hm0

theorem addAnimationEffects_workers (s : PawnState) (g : Statics) :
    (addAnimationEffects s g).1.flightManager = s.flightManager ∧
    (addAnimationEffects s g).1.videoManager = s.videoManager := by
  unfold addAnimationEffects
  by_cases h : motorMean s.motorvals s.frame.nmotors > 0 <;>
    simp [setAudioPitchAndVolume, h]

theorem setGimbal_workers (s : PawnState) (roll pitch : Q) :
    (setGimbal s roll pitch).1.flightManager = s.flightManager ∧
    (setGimbal s roll pitch).1.videoManager = s.videoManager := by
  simp [setGimbal]

theorem tick_workersInv (s : PawnState) (g : Statics) (inp : TickInput)
    (h : WorkersInv s) : WorkersInv (tick s g inp).1 := by
  unfold tick
  by_cases hm : s.mapSelected = true
  · by_cases hc : g.tickCount > 10
    · simp only [hm, hc, if_true, if_pos]
      intro hsel
      set g1 : Statics := { g with tickCount := (g.tickCount + 1) % 2 ^ 64 }
      have hk := getKinematics_workersInv s inp.kin h
      have ha := addAnimationEffects_workers (getKinematics s inp.kin).1 g1
      have hg := setGimbal_workers
        (addAnimationEffects (getKinematics s inp.kin).1 g1).1
        inp.gimbalRoll inp.gimbalPitch
      have hcoreK := getKinematics_sameCore s inp.kin
      have hcoreA := addAnimationEffects_sameCore (getKinematics s inp.kin).1 g1
      have hcoreG := setGimbal_sameCore
        (addAnimationEffects (getKinematics s inp.kin).1 g1).1
        inp.gimbalRoll inp.gimbalPitch
      have hcore := sameCore_trans (sameCore_trans hcoreK hcoreA) hcoreG
      obtain ⟨c1, c2, c3, c4, c5, c6, c7⟩ := hcore
      have hmK : (getKinematics s inp.kin).1.mapSelected = true :=
        hcoreK.2.2.2.2.1.trans hm
      have hkm := hk hmK
      obtain ⟨d1, d2, d3, d4, d5, d6, d7⟩ :=
        sameCore_trans hcoreA hcoreG
      constructor
      · rw [hg.1, ha.1, hkm.1]
        rw [c1, c2, c6, c7]
        exact congrArg some (by rw [hcoreK.1, hcoreK.2.1,
          hcoreK.2.2.2.2.2.1, hcoreK.2.2.2.2.2.2])
      · rw [hg.2, ha.2, hkm.2]
        rw [c3, c4]
        exact congrArg some (by rw [hcoreK.2.2.1, hcoreK.2.2.2.1])
    · simpa [hm, hc] using h
  · simpa [hm] using h

theorem runTicks_workersInv (l : List TickInput) (s : PawnState) (g : Statics)
    (h : WorkersInv s) : WorkersInv (runTicks s g l).1 := by
  induction l generalizing s g with
  | nil => simpa [runTicks] using h
  | cons inp rest ih =>
    exact ih (tick s g inp).1 (tick s g inp).2.1 (tick_workersInv s g inp h)

/-! ### Counter lemmas -/

theorem tick_unselected (s : PawnState) (g : Statics) (inp : TickInput)
    (hm : s.mapSelected = false) : tick s g inp = (s, g, []) := by
  simp [tick, hm]

theorem runTicks_unselected (l : List TickInput) (s : PawnState) (g : Statics)
    (hm : s.mapSelected = false) : runTicks s g l = (s, g, []) := by
  induction l with
  | nil => simp [runTicks]
  | cons inp rest ih => simp [runTicks, tick_unselected s g inp hm, ih]

theorem tick_quiet (s : PawnState) (g : Statics) (inp : TickInput)
    (hm : s.mapSelected = true) (hc : g.tickCount ≤ 10) :
    tick s g inp =
      (s, { g with tickCount := (g.tickCount + 1) % 2 ^ 64 }, []) := by
  have hc2 : ¬ g.tickCount > 10 := by omega
  simp [tick, hm, hc2]

theorem addAnimationEffects_tickCount (s : PawnState) (g : Statics) :
    (addAnimationEffects s g).2.1.tickCount = g.tickCount := by
  unfold addAnimationEffects
  by_cases h : motorMean s.motorvals s.frame.nmotors > 0 <;>
    simp [setAudioPitchAndVolume, h]

theorem tick_count (s : PawnState) (g : Statics) (inp : TickInput)
    (hm : s.mapSelected = true) :
    (tick s g inp).2.1.tickCount = (g.tickCount + 1) % 2 ^ 64 := by
  unfold tick
  by_cases hc : g.tickCount > 10
  · simp only [hm, hc, if_true, if_pos]
    exact addAnimationEffects_tickCount (getKinematics s inp.kin).1
      { g with tickCount := (g.tickCount + 1) % 2 ^ 64 }
  · simp [hm, hc]

theorem runTicks_count (l : List TickInput) (s : PawnState) (g : Statics)
    (hm : s.mapSelected = true) (hlt : g.tickCount < 2 ^ 64) :
    (runTicks s g l).2.1.tickCount = (g.tickCount + l.length) % 2 ^ 64 := by
  induction l generalizing s g with
  | nil =>
    simp [runTicks]
    omega
  | cons inp rest ih =>
    have hm2 : (tick s g inp).1.mapSelected = true :=
      (tick_sameCore s g inp).2.2.2.2.1.trans hm
    have h1 := tick_count s g inp hm
    have hlt2 : (tick s g inp).2.1.tickCount < 2 ^ 64 := by
      rw [h1]; omega
    have h2 := ih (tick s g inp).1 (tick s g inp).2.1 hm2 hlt2
    simp only [runTicks, h2, h1, List.length_cons]
    omega

/-- Up to and including the 11th selected tick, nothing at all happens: the
pawn state is unchanged and no event is emitted; only the counter advances. -/
theorem runTicks_quiet (l : List TickInput) (s : PawnState) (g : Statics)
    (hm : s.mapSelected = true) (hlen : g.tickCount + l.length ≤ 11) :
    (runTicks s g l).1 = s ∧ (runTicks s g l).2.2 = [] ∧
    (runTicks s g l).2.1.tickCount = g.tickCount + l.length := by
  induction l generalizing g with
  | nil => simp [runTicks]
  | cons inp rest ih =>
    have hlen2 : g.tickCount + 1 + rest.length ≤ 11 := by
      simp only [List.length_cons] at hlen; omega
    have hc : g.tickCount ≤ 10 := by omega
    have hmod : (g.tickCount + 1) % 2 ^ 64 = g.tickCount + 1 := by omega
    have ht := tick_quiet s g inp hm hc
    rw [hmod] at ht
    have ihh := ih { g with tickCount := g.tickCount + 1 } (by simpa using hlen2)
    simp only [runTicks, ht]
    refine ⟨ihh.1, by simp [ihh.2.1], ?_⟩
    simp only [List.length_cons]
    have h3 := ihh.2.2
    simp only at h3
    rw [h3]
    omega

/-! ### Trace helper lemmas -/

theorem stopFlagsOk_append (a b : List Event) :
    stopFlagsOk (a ++ b) = (stopFlagsOk a && stopFlagsOk b) := by
  induction a with
  | nil => simp [stopFlagsOk]
  | cons e rest ih => cases e <;> simp [stopFlagsOk, ih, Bool.and_assoc]

theorem countKinReads_append (a b : List Event) :
    countKinReads (a ++ b) = countKinReads a + countKinReads b := by
  simp [countKinReads, List.filter_append]

theorem hasStopEvent_append (a b : List Event) :
    hasStopEvent (a ++ b) = (hasStopEvent a || hasStopEvent b) := by
  simp [hasStopEvent, List.any_append]

theorem propEventsOf_append (a b : List Event) :
    propEventsOf (a ++ b) = propEventsOf a ++ propEventsOf b := by
  simp [propEventsOf, List.filter_append]

/-! ### Substring characterization for the map-name gate -/

theorem listHasPre_iff (needle hay : List Char) :
    listHasPre needle hay = true ↔ ∃ r, hay = needle ++ r := by
  induction needle generalizing hay with
  | nil => simp [listHasPre]
  | cons a as ih =>
    cases hay with
    | nil => simp [listHasPre]
    | cons b bs =>
      simp only [listHasPre, Bool.and_eq_true, beq_iff_eq, ih, List.cons_append,
        List.cons.injEq]
      constructor
      · rintro ⟨hab, r, hr⟩
        exact ⟨r, hab.symm, hr⟩
      · rintro ⟨r, hab, hr⟩
        exact ⟨hab.symm, r, hr⟩

theorem listHasSub_iff (needle hay : List Char) :
    listHasSub needle hay = true ↔ ∃ l r, hay = l ++ needle ++ r := by
  induction hay with
  | nil =>
    cases needle with
    | nil => simp [listHasSub, List.isEmpty]
    | cons a as => simp [listHasSub, List.isEmpty]
  | cons b bs ih =>
    simp only [listHasSub, Bool.or_eq_true, listHasPre_iff, ih]
    constructor
    · rintro (⟨r, hr⟩ | ⟨l, r, hr⟩)
      · exact ⟨[], r, by simp [hr]⟩
      · exact ⟨b :: l, r, by simp [hr]⟩
    · rintro ⟨l, r, hr⟩
      cases l with
      | nil =>
        exact Or.inl ⟨r, by simpa using hr⟩
      | cons c cs =>
        simp only [List.cons_append, List.cons.injEq] at hr
        exact Or.inr ⟨cs, r, hr.2⟩

theorem fstringContains_iff (hay needle : String) :
    fstringContains hay needle = true ↔
      ∃ l r, hay.toList.map Char.toLower =
        l ++ needle.toList.map Char.toLower ++ r := by
  simp [fstringContains, listHasSub_iff]

/-! ### Gated-tick characterization -/

/-- Exact event trace of one gated tick, in source order: kinematics read
(with restart events on a crash), actor pose updates, audio modulation, prop
rotations on a positive mean, gimbal move, video grab, debug output. -/
theorem tick_gated_events (s : PawnState) (g : Statics) (inp : TickInput)
    (hm : s.mapSelected = true) (hc : g.tickCount > 10) :
    (tick s g inp).2.2 =
      Event.kinRead ::
        ((if inp.kin.crashed then
            [Event.stopInvoked s.flightManager.isSome s.videoManager.isSome,
             Event.workersStarted]
          else []) ++
         [Event.setActorLoc inp.kin.location,
          Event.setActorRot inp.kin.rotation] ++
         [Event.audioParam "pitch" (motorMean inp.kin.motorvals s.frame.nmotors),
          Event.audioParam "volume"
            (motorMean inp.kin.motorvals s.frame.nmotors)] ++
         (if motorMean inp.kin.motorvals s.frame.nmotors > 0 then
            (List.range s.frame.nmotors).map fun j =>
              Event.propRotSet j
                (g.propRotation * ((s.frame.motordirs.getD j 0 : Int) : Q) * 100)
          else []) ++
         [Event.gimbalSet inp.gimbalRoll inp.gimbalPitch] ++
         [Event.videoGrab, Event.debugMsg]) := by
  cases hcr : inp.kin.crashed <;>
    by_cases hmm : motorMean inp.kin.motorvals s.frame.nmotors > 0 <;>
      simp [tick, hm, hc, getKinematics, addAnimationEffects,
        setAudioPitchAndVolume, setGimbal, startThreadedWorkers,
        stopThreadedWorkers, hcr, hmm]

theorem countKinReads_propMap (l : List Nat) (f : Nat → Q) :
    countKinReads (l.map fun j => Event.propRotSet j (f j)) = 0 := by
  induction l with
  | nil => rfl
  | cons a as ih => simpa [countKinReads, isKinRead, List.filter] using ih

theorem stopFlagsOk_propMap (l : List Nat) (f : Nat → Q) :
    stopFlagsOk (l.map fun j => Event.propRotSet j (f j)) = true := by
  induction l with
  | nil => rfl
  | cons a as ih => simpa [stopFlagsOk] using ih

/-- A gated tick reads the kinematics snapshot exactly once. -/
theorem tick_gated_kinReads (s : PawnState) (g : Statics) (inp : TickInput)
    (hm : s.mapSelected = true) (hc : g.tickCount > 10) :
    countKinReads (tick s g inp).2.2 = 1 := by
  rw [tick_gated_events s g inp hm hc]
  cases hcr : inp.kin.crashed <;>
    by_cases hmm : motorMean inp.kin.motorvals s.frame.nmotors > 0 <;>
      simp [hcr, hmm, countKinReads_append, countKinReads, isKinRead,
        List.filter, countKinReads_propMap]

/-- State after one gated tick: actor pose and motor values come from this
tick's snapshot, audio pitch and volume from the mean of those motor
values. -/
theorem tick_gated_state (s : PawnState) (g : Statics) (inp : TickInput)
    (hm : s.mapSelected = true) (hc : g.tickCount > 10) :
    (tick s g inp).1.actorLocation = inp.kin.location ∧
    (tick s g inp).1.actorRotation = inp.kin.rotation ∧
    (tick s g inp).1.motorvals = inp.kin.motorvals ∧
    (tick s g inp).1.audioPitch = motorMean inp.kin.motorvals s.frame.nmotors ∧
    (tick s g inp).1.audioVolume =
      motorMean inp.kin.motorvals s.frame.nmotors := by
  cases hcr : inp.kin.crashed <;>
    by_cases hmm : motorMean inp.kin.motorvals s.frame.nmotors > 0 <;>
      simp [tick, hm, hc, getKinematics, addAnimationEffects,
        setAudioPitchAndVolume, setGimbal, startThreadedWorkers,
        stopThreadedWorkers, hcr, hmm]

/-! ### Concrete fixtures used by witness theorems -/

def frameW : Frame := ⟨4, [1, -1, -1, 1]⟩

def pawnW : PawnState := initialPawn frameW ⟨0⟩ 1 2 ⟨3, 4, 5⟩ ⟨0, 1, 0⟩

def pawnSelW : PawnState := (beginPlay "FlyingMap" pawnW).1

def inpW : TickInput := ⟨⟨⟨1, 2, 3⟩, ⟨0, 0, 0⟩, [1, 1, 1, 1], false⟩, 0, 0⟩

def inpCrashW : TickInput := ⟨⟨⟨1, 2, 3⟩, ⟨0, 0, 0⟩, [1, 1, 1, 1], true⟩, 0, 0⟩

/-! ### Claim theorems -/

/-- C3: after `stopThreadedWorkers` returns, both stored worker handles hold
exactly the value returned by `FThreadedWorker::stopThreadedWorker`, which is
the null handle, so neither field can name a stopped worker any more. -/
theorem stop_nulls_both_handles (s : PawnState) :
    (stopThreadedWorkers s).1.flightManager =
      FThreadedWorker.stopThreadedWorker s.flightManager ∧
    (stopThreadedWorkers s).1.videoManager =
      FThreadedWorker.stopThreadedWorker s.videoManager ∧
    (stopThreadedWorkers s).1.flightManager = none ∧
    (stopThreadedWorkers s).1.videoManager = none := by
  simp [stopThreadedWorkers, FThreadedWorker.stopThreadedWorker]

/-- C6: the factory `MultirotorDynamics::create` returns the BigQuad frame
variant, which supplies the eight physical constants of the parameter set
(thrust coefficient b, drag coefficient d, mass m, arm length l, principal
inertias Ix Iy Iz, rotor inertia Jr), the max rotor RPM, and a motor-direction
table with one ±1 entry per motor. -/
theorem create_supplies_bigquad_constants :
    MultirotorDynamics.create = BigQuadDynamics ∧
    MultirotorDynamics.create.b = 530216718361085 / 10 ^ 19 ∧
    MultirotorDynamics.create.d = 223656692806239 / 10 ^ 20 ∧
    MultirotorDynamics.create.m = 1647 / 100 ∧
    MultirotorDynamics.create.l = 6 / 10 ∧
    MultirotorDynamics.create.Ix = 2 ∧
    MultirotorDynamics.create.Iy = 2 ∧
    MultirotorDynamics.create.Iz = 3 ∧
    MultirotorDynamics.create.Jr = 308013 / 10 ^ 9 ∧
    MultirotorDynamics.create.maxrpm = 10000 ∧
    MultirotorDynamics.create.nmotors = 4 ∧
    MultirotorDynamics.create.motordirs.length =
      MultirotorDynamics.create.nmotors ∧
    MultirotorDynamics.create.motordirs.all
      (fun dir => dir = 1 || dir = -1) = true := by
  refine ⟨rfl, ?_, ?_, ?_, ?_, ?_, ?_, ?_, ?_, ?_, ?_, ?_, ?_⟩ <;>
    norm_num [MultirotorDynamics.create, BigQuadDynamics, quadXAPNMotors,
      quadXAPMotorDirections]

/-- C8 counterexample: the map name "untitled1" contains no literal
(case-sensitive) substring "Untitled", yet BeginPlay treats it as the no-map
configuration error — UE4's `FString::Contains` searches with
`ESearchCase::IgnoreCase`, so selection is not decided by the literal
substring of the claim. -/
theorem map_gate_case_counterexample :
    (¬ ∃ l r, "untitled1".toList = l ++ "Untitled".toList ++ r) ∧
    (beginPlay "untitled1" pawnW).1.mapSelected = false ∧
    (beginPlay "untitled1" pawnW).2 = [Event.errorMsg "NO MAP SELECTED"] := by
  refine ⟨?_, by decide, by decide⟩
  intro hc
  exact absurd ((listHasSub_iff "Untitled".toList "untitled1".toList).2 hc)
    (by decide)

/-- C8 (amended): BeginPlay decides map selection purely from the map's name:
the map counts as selected iff the name does not contain the substring
"untitled" case-insensitively (UE4's `FString::Contains` defaults to
`ESearchCase::IgnoreCase`); a name containing any case variant of it is
handled as the no-map configuration error — the error message is surfaced and
the worker handles are left untouched. -/
theorem map_gate_is_untitled_substring (mapName : String) (s : PawnState) :
    ((beginPlay mapName s).1.mapSelected = true ↔
      ¬ ∃ l r, mapName.toList.map Char.toLower =
        l ++ "untitled".toList ++ r) ∧
    ((∃ l r, mapName.toList.map Char.toLower = l ++ "untitled".toList ++ r) →
      (beginPlay mapName s).2 = [Event.errorMsg "NO MAP SELECTED"] ∧
      (beginPlay mapName s).1.flightManager = s.flightManager ∧
      (beginPlay mapName s).1.videoManager = s.videoManager) := by
  have hlow : "Untitled".toList.map Char.toLower = "untitled".toList := by
    decide
  have hiff : fstringContains mapName "Untitled" = true ↔
      ∃ l r, mapName.toList.map Char.toLower =
        l ++ "untitled".toList ++ r := by
    rw [fstringContains_iff, hlow]
  by_cases h : fstringContains mapName "Untitled" = true
  · have hx := hiff.1 h
    constructor
    · have hms : (beginPlay mapName s).1.mapSelected = false := by
        simp [beginPlay, h]
      rw [hms]
      constructor
      · intro habs
        exact (Bool.false_ne_true habs).elim
      · intro hn
        exact absurd hx hn
    · intro _
      simp [beginPlay, h]
  · have hx : ¬ ∃ l r, mapName.toList.map Char.toLower =
        l ++ "untitled".toList ++ r := fun hc => h (hiff.2 hc)
    constructor
    · have hms : (beginPlay mapName s).1.mapSelected = true := by
        simp only [Bool.not_eq_true] at h
        simp [beginPlay, h, startThreadedWorkers]
      rw [hms]
      simp only [true_iff]
      exact hx
    · intro hc
      exact absurd hc hx

theorem map_gate_witness :
    (beginPlay "Untitled1" pawnW).2 = [Event.errorMsg "NO MAP SELECTED"] ∧
    (beginPlay "untitled1" pawnW).1.flightManager = pawnW.flightManager ∧
    (beginPlay "FlyingMap" pawnW).1.mapSelected = true :=
  ⟨((map_gate_is_untitled_substring "Untitled1" pawnW).2
      ⟨[], ['1'], by decide⟩).1,
   ((map_gate_is_untitled_substring "untitled1" pawnW).2
      ⟨[], ['1'], by decide⟩).2.1,
   ((map_gate_is_untitled_substring "FlyingMap" pawnW).1).2
     (fun hc => absurd
       ((listHasSub_iff "untitled".toList
         ("FlyingMap".toList.map Char.toLower)).2 hc)
       (by decide))⟩

/-- C2: when no map is selected at BeginPlay (the name contains "Untitled"
case-insensitively, as `FString::Contains` checks it), no threaded worker is
ever created, the "NO MAP SELECTED" error is surfaced, and every subsequent
Tick is a complete no-op — no kinematics read, animation, gimbal or video
event, pawn state and statics untouched. -/
theorem no_map_never_runs (frame : Frame) (params : Params) (c1 c2 : Nat)
    (loc : Vec3) (rot : Rot3) (mapName : String) (g : Statics)
    (inps : List TickInput)
    (h : fstringContains mapName "Untitled" = true) :
    (beginPlay mapName (initialPawn frame params c1 c2 loc rot)).1.flightManager =
      none ∧
    (beginPlay mapName (initialPawn frame params c1 c2 loc rot)).1.videoManager =
      none ∧
    (beginPlay mapName (initialPawn frame params c1 c2 loc rot)).2 =
      [Event.errorMsg "NO MAP SELECTED"] ∧
    runTicks (beginPlay mapName (initialPawn frame params c1 c2 loc rot)).1 g
        inps =
      ((beginPlay mapName (initialPawn frame params c1 c2 loc rot)).1, g, []) := by
  refine ⟨?_, ?_, ?_, ?_⟩
  · simp [beginPlay, h, initialPawn]
  · simp [beginPlay, h, initialPawn]
  · simp [beginPlay, h]
  · exact runTicks_unselected inps _ g (by simp [beginPlay, h])

theorem no_map_never_runs_witness :
    (beginPlay "untitled1" pawnW).1.flightManager = none ∧
    (beginPlay "untitled1" pawnW).2 = [Event.errorMsg "NO MAP SELECTED"] ∧
    runTicks (beginPlay "untitled1" pawnW).1 statics0 [inpW] =
      ((beginPlay "untitled1" pawnW).1, statics0, []) := by
  have h := no_map_never_runs frameW ⟨0⟩ 1 2 ⟨3, 4, 5⟩ ⟨0, 1, 0⟩ "untitled1"
    statics0 [inpW] (by decide)
  exact ⟨h.1, h.2.2.1, h.2.2.2⟩

/-- C7: the tick-counter gate: with a map selected, a tick whose pre-increment
counter value is at most 10 emits no event at all (no kinematics read,
animation, gimbal or video access); once the counter has exceeded 10 the tick
reads the kinematics exactly once; and from process start the first 11 ticks
are completely silent. -/
theorem tick_counter_gate (s : PawnState) (g : Statics) (inp : TickInput)
    (inps : List TickInput) (hm : s.mapSelected = true)
    (hlen : inps.length ≤ 11) :
    (g.tickCount ≤ 10 → (tick s g inp).2.2 = []) ∧
    (g.tickCount > 10 → countKinReads (tick s g inp).2.2 = 1) ∧
    (runTicks s statics0 inps).2.2 = [] := by
  refine ⟨fun hc => ?_, fun hc => tick_gated_kinReads s g inp hm hc, ?_⟩
  · rw [tick_quiet s g inp hm hc]
  · exact (runTicks_quiet inps s statics0 hm
      (by simp only [statics0]; omega)).2.1

theorem tick_counter_gate_witness :
    (tick pawnSelW statics0 inpW).2.2 = [] ∧
    countKinReads (tick pawnSelW ⟨11, 0⟩ inpW).2.2 = 1 ∧
    (runTicks pawnSelW statics0
      [inpW, inpW, inpW, inpW, inpW, inpW, inpW, inpW, inpW, inpW, inpW]).2.2 =
      [] :=
  ⟨(tick_counter_gate pawnSelW statics0 inpW [] (by decide) (by decide)).1
      (by decide),
   (tick_counter_gate pawnSelW ⟨11, 0⟩ inpW [] (by decide) (by decide)).2.1
      (by decide),
   (tick_counter_gate pawnSelW statics0 inpW
      [inpW, inpW, inpW, inpW, inpW, inpW, inpW, inpW, inpW, inpW, inpW]
      (by decide) (by decide)).2.2⟩

/-- C5: every gated tick reads the flight manager's snapshot exactly once and
applies it that same tick: the actor's location and rotation are set to the
returned pose, and the returned per-motor values become the pawn's motor
buffer and drive the audio modulation of the tick. -/
theorem tick_reads_once_and_applies (s : PawnState) (g : Statics)
    (inp : TickInput) (hm : s.mapSelected = true) (hc : g.tickCount > 10) :
    countKinReads (tick s g inp).2.2 = 1 ∧
    (tick s g inp).1.actorLocation = inp.kin.location ∧
    (tick s g inp).1.actorRotation = inp.kin.rotation ∧
    (tick s g inp).1.motorvals = inp.kin.motorvals ∧
    (tick s g inp).1.audioPitch = motorMean inp.kin.motorvals s.frame.nmotors ∧
    (tick s g inp).1.audioVolume =
      motorMean inp.kin.motorvals s.frame.nmotors ∧
    Event.setActorLoc inp.kin.location ∈ (tick s g inp).2.2 ∧
    Event.setActorRot inp.kin.rotation ∈ (tick s g inp).2.2 ∧
    Event.audioParam "pitch" (motorMean inp.kin.motorvals s.frame.nmotors) ∈
      (tick s g inp).2.2 ∧
    Event.audioParam "volume" (motorMean inp.kin.motorvals s.frame.nmotors) ∈
      (tick s g inp).2.2 := by
  have hstate := tick_gated_state s g inp hm hc
  refine ⟨tick_gated_kinReads s g inp hm hc, hstate.1, hstate.2.1,
    hstate.2.2.1, hstate.2.2.2.1, hstate.2.2.2.2, ?_, ?_, ?_, ?_⟩ <;>
    (rw [tick_gated_events s g inp hm hc]; simp)

theorem tick_reads_once_witness :
    countKinReads (tick pawnSelW ⟨11, 0⟩ inpW).2.2 = 1 ∧
    (tick pawnSelW ⟨11, 0⟩ inpW).1.actorLocation = ⟨1, 2, 3⟩ ∧
    (tick pawnSelW ⟨11, 0⟩ inpW).1.motorvals = [1, 1, 1, 1] ∧
    (tick pawnSelW ⟨11, 0⟩ inpW).1.audioPitch = 1 := by
  have h := tick_reads_once_and_applies pawnSelW ⟨11, 0⟩ inpW (by decide)
    (by decide)
  have h4 : pawnSelW.frame.nmotors = 4 := by decide
  have hmv : inpW.kin.motorvals = [1, 1, 1, 1] := rfl
  have hmean : motorMean inpW.kin.motorvals pawnSelW.frame.nmotors = 1 := by
    rw [h4, hmv]
    norm_num [motorMean, motorSum]
  exact ⟨h.1, h.2.1, h.2.2.2.1, h.2.2.2.2.1.trans hmean⟩

theorem propEventsOf_propMap (l : List Nat) (f : Nat → Q) :
    propEventsOf (l.map fun j => Event.propRotSet j (f j)) =
      l.map fun j => Event.propRotSet j (f j) := by
  induction l with
  | nil => rfl
  | cons a as ih => simpa [propEventsOf, isPropRotSet] using ih

theorem propSignsOk_propMap (dirs : List Int) (r : Q) (hr : 0 ≤ r) (n : Nat) :
    propSignsOk dirs ((List.range n).map fun j =>
      Event.propRotSet j (r * ((dirs.getD j 0 : Int) : Q) * 100)) = true := by
  induction n with
  | zero => rfl
  | succ k ih =>
    rw [List.range_succ, List.map_append]
    unfold propSignsOk at ih ⊢
    rw [List.all_append, ih, Bool.true_and]
    simp only [List.map_cons, List.map_nil, List.all_cons, List.all_nil,
      Bool.and_true]
    refine decide_eq_true ⟨fun hd => ?_, fun hd => ?_⟩
    · have hd2 : (0 : Q) ≤ ((dirs.getD k 0 : Int) : Q) := by
        exact_mod_cast le_of_lt hd
      nlinarith
    · have hd2 : ((dirs.getD k 0 : Int) : Q) ≤ 0 := by
        exact_mod_cast le_of_lt hd
      nlinarith

/-- Exact event list of one animation pass. -/
theorem addAnimationEffects_events (s : PawnState) (g : Statics) :
    (addAnimationEffects s g).2.2 =
      [Event.audioParam "pitch" (motorMean s.motorvals s.frame.nmotors),
       Event.audioParam "volume" (motorMean s.motorvals s.frame.nmotors)] ++
      (if motorMean s.motorvals s.frame.nmotors > 0 then
         (List.range s.frame.nmotors).map fun j =>
           Event.propRotSet j
             (g.propRotation * ((s.frame.motordirs.getD j 0 : Int) : Q) * 100)
       else []) := by
  by_cases hmm : motorMean s.motorvals s.frame.nmotors > 0 <;>
    simp [addAnimationEffects, setAudioPitchAndVolume, hmm]

/-- Audio parameters and static rotation counter after one animation pass. -/
theorem addAnimationEffects_state (s : PawnState) (g : Statics) :
    (addAnimationEffects s g).1.audioPitch =
      motorMean s.motorvals s.frame.nmotors ∧
    (addAnimationEffects s g).1.audioVolume =
      motorMean s.motorvals s.frame.nmotors ∧
    (addAnimationEffects s g).2.1.propRotation =
      (if motorMean s.motorvals s.frame.nmotors > 0 then g.propRotation + 1
       else g.propRotation) := by
  by_cases hmm : motorMean s.motorvals s.frame.nmotors > 0 <;>
    simp [addAnimationEffects, setAudioPitchAndVolume, hmm]

/-- C10: each animation pass sets the audio "pitch" and "volume" parameters
both to the mean of the frame's `nmotors` motor values; prop meshes get a
rotation event only when that mean is strictly positive, each with yaw
`rotation * motordirs[j] * 100` whose sign never opposes the motor-direction
entry (the static rotation counter being nonnegative); a zero or negative mean
produces no prop rotation and leaves the static rotation untouched. -/
theorem animation_mean_and_prop_signs (s : PawnState) (g : Statics)
    (hr : 0 ≤ g.propRotation) :
    (addAnimationEffects s g).1.audioPitch =
      motorMean s.motorvals s.frame.nmotors ∧
    (addAnimationEffects s g).1.audioVolume =
      motorMean s.motorvals s.frame.nmotors ∧
    Event.audioParam "pitch" (motorMean s.motorvals s.frame.nmotors) ∈
      (addAnimationEffects s g).2.2 ∧
    Event.audioParam "volume" (motorMean s.motorvals s.frame.nmotors) ∈
      (addAnimationEffects s g).2.2 ∧
    propEventsOf (addAnimationEffects s g).2.2 =
      (if motorMean s.motorvals s.frame.nmotors > 0 then
         (List.range s.frame.nmotors).map fun j =>
           Event.propRotSet j
             (g.propRotation * ((s.frame.motordirs.getD j 0 : Int) : Q) * 100)
       else []) ∧
    (addAnimationEffects s g).2.1.propRotation =
      (if motorMean s.motorvals s.frame.nmotors > 0 then g.propRotation + 1
       else g.propRotation) ∧
    propSignsOk s.frame.motordirs (addAnimationEffects s g).2.2 = true := by
  have hev := addAnimationEffects_events s g
  have hst := addAnimationEffects_state s g
  refine ⟨hst.1, hst.2.1, ?_, ?_, ?_, hst.2.2, ?_⟩
  · rw [hev]; simp
  · rw [hev]; simp
  · rw [hev, propEventsOf_append]
    by_cases hmm : motorMean s.motorvals s.frame.nmotors > 0
    · rw [if_pos hmm, propEventsOf_propMap]
      rfl
    · rw [if_neg hmm]
      rfl
  · rw [hev]
    unfold propSignsOk
    rw [List.all_append]
    by_cases hmm : motorMean s.motorvals s.frame.nmotors > 0
    · rw [if_pos hmm]
      have hx := propSignsOk_propMap s.frame.motordirs g.propRotation hr
        s.frame.nmotors
      unfold propSignsOk at hx
      rw [hx]
      rfl
    · rw [if_neg hmm]
      rfl

def pawnPosW : PawnState := { pawnW with motorvals := [1, 1, 1, 1] }

theorem animation_witness :
    (addAnimationEffects pawnW statics0).1.audioPitch = 0 ∧
    propEventsOf (addAnimationEffects pawnW statics0).2.2 = [] ∧
    (addAnimationEffects pawnPosW statics0).2.1.propRotation = 1 ∧
    propSignsOk pawnPosW.frame.motordirs
      (addAnimationEffects pawnPosW statics0).2.2 = true := by
  have h0 := animation_mean_and_prop_signs pawnW statics0 (le_refl 0)
  have h1 := animation_mean_and_prop_signs pawnPosW statics0 (le_refl 0)
  have hm0 : motorMean pawnW.motorvals pawnW.frame.nmotors = 0 := by
    have : pawnW.motorvals = [0, 0, 0, 0] := by decide
    have h4 : pawnW.frame.nmotors = 4 := by decide
    rw [this, h4]
    norm_num [motorMean, motorSum]
  have hm1 : motorMean pawnPosW.motorvals pawnPosW.frame.nmotors = 1 := by
    have : pawnPosW.motorvals = [1, 1, 1, 1] := rfl
    have h4 : pawnPosW.frame.nmotors = 4 := by decide
    rw [this, h4]
    norm_num [motorMean, motorSum]
  refine ⟨h0.1.trans hm0, ?_, ?_, h1.2.2.2.2.2.2⟩
  · rw [h0.2.2.2.2.1, hm0]
    norm_num
  · rw [h1.2.2.2.2.2.1, hm1]
    norm_num [statics0]

/-! ### Lifecycle safety lemmas -/

theorem beginPlay_workersInv (mapName : String) (s0 : PawnState) :
    WorkersInv (beginPlay mapName s0).1 := by
  by_cases h : fstringContains mapName "Untitled" = true
  · intro hm
    simp [beginPlay, h] at hm
  · intro hm
    simp only [Bool.not_eq_true] at h
    simp [beginPlay, h, startThreadedWorkers, FFlightManager.create,
      FVideoManager.create]

theorem tick_stopFlagsOk (s : PawnState) (g : Statics) (inp : TickInput)
    (h : WorkersInv s) : stopFlagsOk (tick s g inp).2.2 = true := by
  by_cases hm : s.mapSelected = true
  · by_cases hc : g.tickCount > 10
    · rw [tick_gated_events s g inp hm hc]
      obtain ⟨hf, hv⟩ := h hm
      cases hcr : inp.kin.crashed <;>
        by_cases hmm : motorMean inp.kin.motorvals s.frame.nmotors > 0 <;>
          simp [stopFlagsOk, stopFlagsOk_append, hf, hv, stopFlagsOk_propMap,
            hmm]
    · rw [tick_quiet s g inp hm (by omega)]
      rfl
  · rw [tick_unselected s g inp (by simpa using hm)]
    rfl

theorem runTicks_stopFlagsOk (l : List TickInput) (s : PawnState) (g : Statics)
    (h : WorkersInv s) : stopFlagsOk (runTicks s g l).2.2 = true := by
  induction l generalizing s g with
  | nil => rfl
  | cons inp rest ih =>
    simp only [runTicks]
    rw [stopFlagsOk_append, tick_stopFlagsOk s g inp h,
      ih (tick s g inp).1 (tick s g inp).2.1 (tick_workersInv s g inp h)]
    rfl

theorem endPlay_hasStop (s : PawnState) :
    hasStopEvent (endPlay s).2 = s.mapSelected := by
  by_cases hm : s.mapSelected = true
  · simp [endPlay, hm, stopThreadedWorkers, hasStopEvent, isStopInvoked]
  · simp only [Bool.not_eq_true] at hm
    simp [endPlay, hm, hasStopEvent]

theorem endPlay_stopFlagsOk (s : PawnState) (h : WorkersInv s) :
    stopFlagsOk (endPlay s).2 = true := by
  by_cases hm : s.mapSelected = true
  · obtain ⟨hf, hv⟩ := h hm
    simp [endPlay, hm, stopThreadedWorkers, stopFlagsOk, hf, hv]
  · simp only [Bool.not_eq_true] at hm
    simp [endPlay, hm, stopFlagsOk]

/-- C4: teardown is safe under partial failure: over a whole lifecycle
(construction, BeginPlay, any tick sequence, EndPlay), EndPlay invokes the
worker-stop path exactly when a map was selected — never for a worker that
was never created — and every stop invocation in the entire trace finds both
handles freshly created and live, so stop is only ever applied to live
handles (and a stop of an already-nulled handle would in any case return the
null handle again). -/
theorem teardown_stop_safety (frame : Frame) (params : Params) (c1 c2 : Nat)
    (loc : Vec3) (rot : Rot3) (mapName : String) (inps : List TickInput) :
    hasStopEvent
      (endPlay (runTicks (beginPlay mapName
        (initialPawn frame params c1 c2 loc rot)).1 statics0 inps).1).2 =
      (beginPlay mapName (initialPawn frame params c1 c2 loc rot)).1.mapSelected ∧
    stopFlagsOk
      ((beginPlay mapName (initialPawn frame params c1 c2 loc rot)).2 ++
       (runTicks (beginPlay mapName
         (initialPawn frame params c1 c2 loc rot)).1 statics0 inps).2.2 ++
       (endPlay (runTicks (beginPlay mapName
         (initialPawn frame params c1 c2 loc rot)).1 statics0 inps).1).2) =
      true := by
  have hinv1 : WorkersInv (beginPlay mapName
      (initialPawn frame params c1 c2 loc rot)).1 :=
    beginPlay_workersInv mapName (initialPawn frame params c1 c2 loc rot)
  have hinv2 : WorkersInv (runTicks (beginPlay mapName
      (initialPawn frame params c1 c2 loc rot)).1 statics0 inps).1 :=
    runTicks_workersInv inps _ statics0 hinv1
  constructor
  · rw [endPlay_hasStop]
    exact (runTicks_sameCore inps (beginPlay mapName
      (initialPawn frame params c1 c2 loc rot)).1 statics0).2.2.2.2.1
  · rw [stopFlagsOk_append, stopFlagsOk_append,
      runTicks_stopFlagsOk inps _ statics0 hinv1, endPlay_stopFlagsOk _ hinv2]
    have hb : stopFlagsOk (beginPlay mapName
        (initialPawn frame params c1 c2 loc rot)).2 = true := by
      by_cases h : fstringContains mapName "Untitled" = true
      · simp [beginPlay, h, stopFlagsOk]
      · simp only [Bool.not_eq_true] at h
        simp [beginPlay, h, startThreadedWorkers, stopFlagsOk]
    rw [hb]
    rfl

/-- Handles and restart events after one gated tick that observes a crash:
both workers are recreated, the flight manager reseeded from the pawn's
stored start pose. -/
theorem tick_crash_restarts (s : PawnState) (g : Statics) (inp : TickInput)
    (hm : s.mapSelected = true) (hc : g.tickCount > 10)
    (hcr : inp.kin.crashed = true) :
    (tick s g inp).1.flightManager =
      some (FFlightManager.create s.frame s.params s.startLocation
        s.startRotation) ∧
    (tick s g inp).1.videoManager =
      some (FVideoManager.create s.camera1RenderTarget
        s.camera2RenderTarget) ∧
    Event.stopInvoked s.flightManager.isSome s.videoManager.isSome ∈
      (tick s g inp).2.2 ∧
    Event.workersStarted ∈ (tick s g inp).2.2 := by
  refine ⟨?_, ?_, ?_, ?_⟩
  · by_cases hmm : motorMean inp.kin.motorvals s.frame.nmotors > 0 <;>
      simp [tick, hm, hc, getKinematics, addAnimationEffects,
        setAudioPitchAndVolume, setGimbal, startThreadedWorkers,
        stopThreadedWorkers, hcr, hmm]
  · by_cases hmm : motorMean inp.kin.motorvals s.frame.nmotors > 0 <;>
      simp [tick, hm, hc, getKinematics, addAnimationEffects,
        setAudioPitchAndVolume, setGimbal, startThreadedWorkers,
        stopThreadedWorkers, hcr, hmm]
  · rw [tick_gated_events s g inp hm hc]
    simp [hcr]
  · rw [tick_gated_events s g inp hm hc]
    simp [hcr]

/-- C1: whenever a gated consumer tick's kinematics read observes
crashed=true, the pawn stops both workers and creates fresh ones, and the
fresh flight manager is seeded with the start location and rotation captured
at BeginPlay (the actor's ground-truth pose at that moment), which no tick —
including earlier crash-triggered restarts — ever overwrites. -/
theorem crash_restart_uses_original_pose (frame : Frame) (params : Params)
    (c1 c2 : Nat) (loc : Vec3) (rot : Rot3) (mapName : String)
    (inps : List TickInput) (inp : TickInput)
    (hsel : (beginPlay mapName
      (initialPawn frame params c1 c2 loc rot)).1.mapSelected = true)
    (hgate : (runTicks (beginPlay mapName
      (initialPawn frame params c1 c2 loc rot)).1 statics0
        inps).2.1.tickCount > 10)
    (hcrash : inp.kin.crashed = true) :
    (runTicks (beginPlay mapName
      (initialPawn frame params c1 c2 loc rot)).1 statics0
        inps).1.startLocation = loc ∧
    (runTicks (beginPlay mapName
      (initialPawn frame params c1 c2 loc rot)).1 statics0
        inps).1.startRotation = rot ∧
    (tick (runTicks (beginPlay mapName
      (initialPawn frame params c1 c2 loc rot)).1 statics0 inps).1
      (runTicks (beginPlay mapName
        (initialPawn frame params c1 c2 loc rot)).1 statics0 inps).2.1
      inp).1.startLocation = loc ∧
    (tick (runTicks (beginPlay mapName
      (initialPawn frame params c1 c2 loc rot)).1 statics0 inps).1
      (runTicks (beginPlay mapName
        (initialPawn frame params c1 c2 loc rot)).1 statics0 inps).2.1
      inp).1.startRotation = rot ∧
    (tick (runTicks (beginPlay mapName
      (initialPawn frame params c1 c2 loc rot)).1 statics0 inps).1
      (runTicks (beginPlay mapName
        (initialPawn frame params c1 c2 loc rot)).1 statics0 inps).2.1
      inp).1.flightManager =
      some (FFlightManager.create frame params loc rot) ∧
    (tick (runTicks (beginPlay mapName
      (initialPawn frame params c1 c2 loc rot)).1 statics0 inps).1
      (runTicks (beginPlay mapName
        (initialPawn frame params c1 c2 loc rot)).1 statics0 inps).2.1
      inp).1.videoManager = some (FVideoManager.create c1 c2) ∧
    Event.stopInvoked true true ∈
      (tick (runTicks (beginPlay mapName
        (initialPawn frame params c1 c2 loc rot)).1 statics0 inps).1
        (runTicks (beginPlay mapName
          (initialPawn frame params c1 c2 loc rot)).1 statics0 inps).2.1
        inp).2.2 ∧
    Event.workersStarted ∈
      (tick (runTicks (beginPlay mapName
        (initialPawn frame params c1 c2 loc rot)).1 statics0 inps).1
        (runTicks (beginPlay mapName
          (initialPawn frame params c1 c2 loc rot)).1 statics0 inps).2.1
        inp).2.2 := by
  have hcont : fstringContains mapName "Untitled" = false := by
    by_cases h : fstringContains mapName "Untitled" = true
    · exfalso
      rw [show (beginPlay mapName
        (initialPawn frame params c1 c2 loc rot)).1.mapSelected = false by
          simp [beginPlay, h]] at hsel
      exact Bool.false_ne_true hsel
    · simpa using h
  have hp1L : (beginPlay mapName
      (initialPawn frame params c1 c2 loc rot)).1.startLocation = loc := by
    simp [beginPlay, hcont, startThreadedWorkers, initialPawn]
  have hp1R : (beginPlay mapName
      (initialPawn frame params c1 c2 loc rot)).1.startRotation = rot := by
    simp [beginPlay, hcont, startThreadedWorkers, initialPawn]
  have hp1F : (beginPlay mapName
      (initialPawn frame params c1 c2 loc rot)).1.frame = frame := by
    simp [beginPlay, hcont, startThreadedWorkers, initialPawn]
  have hp1P : (beginPlay mapName
      (initialPawn frame params c1 c2 loc rot)).1.params = params := by
    simp [beginPlay, hcont, startThreadedWorkers, initialPawn]
  have hp1C1 : (beginPlay mapName
      (initialPawn frame params c1 c2 loc rot)).1.camera1RenderTarget = c1 := by
    simp [beginPlay, hcont, startThreadedWorkers, initialPawn]
  have hp1C2 : (beginPlay mapName
      (initialPawn frame params c1 c2 loc rot)).1.camera2RenderTarget = c2 := by
    simp [beginPlay, hcont, startThreadedWorkers, initialPawn]
  have hcore := runTicks_sameCore inps (beginPlay mapName
    (initialPawn frame params c1 c2 loc rot)).1 statics0
  obtain ⟨a1, a2, a3, a4, a5, a6, a7⟩ := hcore
  have hm2 : (runTicks (beginPlay mapName
      (initialPawn frame params c1 c2 loc rot)).1 statics0
        inps).1.mapSelected = true := a5.trans hsel
  have hinv2 : WorkersInv (runTicks (beginPlay mapName
      (initialPawn frame params c1 c2 loc rot)).1 statics0 inps).1 :=
    runTicks_workersInv inps _ statics0
      (beginPlay_workersInv mapName (initialPawn frame params c1 c2 loc rot))
  obtain ⟨hf2, hv2⟩ := hinv2 hm2
  have hrestart := tick_crash_restarts _ _ inp hm2 hgate hcrash
  have htc := tick_sameCore (runTicks (beginPlay mapName
    (initialPawn frame params c1 c2 loc rot)).1 statics0 inps).1
    (runTicks (beginPlay mapName
      (initialPawn frame params c1 c2 loc rot)).1 statics0 inps).2.1 inp
  refine ⟨a6.trans hp1L, a7.trans hp1R, ?_, ?_, ?_, ?_, ?_, ?_⟩
  · exact htc.2.2.2.2.2.1.trans (a6.trans hp1L)
  · exact htc.2.2.2.2.2.2.trans (a7.trans hp1R)
  · rw [hrestart.1, a1.trans hp1F, a2.trans hp1P, a6.trans hp1L,
      a7.trans hp1R]
  · rw [hrestart.2.1, a3.trans hp1C1, a4.trans hp1C2]
  · have hmem := hrestart.2.2.1
    rw [hf2, hv2] at hmem
    simpa using hmem
  · exact hrestart.2.2.2

/-- C9: the gating tick counter is one process-wide static shared by every
pawn instance and reset by nothing: with two selected pawn instances A and B,
after A executes `a` ticks and B executes `b` ticks the shared counter holds
a + b, and whether A's next tick performs a kinematics read is decided by
a + b — it depends on how many ticks the other instance has executed. -/
theorem counter_shared_across_instances (pa pb : PawnState)
    (inpA inpB inpN : TickInput) (a b : Nat)
    (hA : pa.mapSelected = true) (hB : pb.mapSelected = true)
    (hab : a + b < 2 ^ 64) :
    (runTicks pb (runTicks pa statics0 (List.replicate a inpA)).2.1
        (List.replicate b inpB)).2.1.tickCount = a + b ∧
    countKinReads
      (tick (runTicks pa statics0 (List.replicate a inpA)).1
        (runTicks pb (runTicks pa statics0 (List.replicate a inpA)).2.1
          (List.replicate b inpB)).2.1 inpN).2.2 =
      (if 10 < a + b then 1 else 0) := by
  have ha : a < 2 ^ 64 := by omega
  have hca : (runTicks pa statics0
      (List.replicate a inpA)).2.1.tickCount = a := by
    rw [runTicks_count (List.replicate a inpA) pa statics0 hA
      (by norm_num [statics0])]
    simp only [statics0, List.length_replicate]
    omega
  have hcb : (runTicks pb (runTicks pa statics0 (List.replicate a inpA)).2.1
      (List.replicate b inpB)).2.1.tickCount = a + b := by
    rw [runTicks_count (List.replicate b inpB) pb
      (runTicks pa statics0 (List.replicate a inpA)).2.1 hB
      (by rw [hca]; omega)]
    rw [List.length_replicate, hca]
    omega
  have hmA2 : (runTicks pa statics0
      (List.replicate a inpA)).1.mapSelected = true :=
    (runTicks_sameCore (List.replicate a inpA) pa
      statics0).2.2.2.2.1.trans hA
  refine ⟨hcb, ?_⟩
  by_cases h10 : 10 < a + b
  · rw [if_pos h10]
    exact tick_gated_kinReads _ _ inpN hmA2 (by rw [hcb]; omega)
  · rw [if_neg h10]
    rw [tick_quiet _ _ inpN hmA2 (by rw [hcb]; omega)]
    rfl

theorem crash_restart_witness :
    (tick (runTicks (beginPlay "FlyingMap"
        (initialPawn frameW ⟨0⟩ 1 2 ⟨3, 4, 5⟩ ⟨0, 1, 0⟩)).1 statics0
        (List.replicate 11 inpW)).1
      (runTicks (beginPlay "FlyingMap"
        (initialPawn frameW ⟨0⟩ 1 2 ⟨3, 4, 5⟩ ⟨0, 1, 0⟩)).1 statics0
        (List.replicate 11 inpW)).2.1
      inpCrashW).1.flightManager =
      some (FFlightManager.create frameW ⟨0⟩ ⟨3, 4, 5⟩ ⟨0, 1, 0⟩) ∧
    Event.stopInvoked true true ∈
      (tick (runTicks (beginPlay "FlyingMap"
          (initialPawn frameW ⟨0⟩ 1 2 ⟨3, 4, 5⟩ ⟨0, 1, 0⟩)).1 statics0
          (List.replicate 11 inpW)).1
        (runTicks (beginPlay "FlyingMap"
          (initialPawn frameW ⟨0⟩ 1 2 ⟨3, 4, 5⟩ ⟨0, 1, 0⟩)).1 statics0
          (List.replicate 11 inpW)).2.1
        inpCrashW).2.2 := by
  have h := crash_restart_uses_original_pose frameW ⟨0⟩ 1 2 ⟨3, 4, 5⟩
    ⟨0, 1, 0⟩ "FlyingMap" (List.replicate 11 inpW) inpCrashW (by decide)
    (by decide) rfl
  exact ⟨h.2.2.2.2.1, h.2.2.2.2.2.2.1⟩

theorem counter_shared_witness :
    countKinReads
      (tick (runTicks pawnSelW statics0 (List.replicate 5 inpW)).1
        (runTicks pawnSelW
          (runTicks pawnSelW statics0 (List.replicate 5 inpW)).2.1
          (List.replicate 0 inpW)).2.1 inpW).2.2 = 0 ∧
    countKinReads
      (tick (runTicks pawnSelW statics0 (List.replicate 5 inpW)).1
        (runTicks pawnSelW
          (runTicks pawnSelW statics0 (List.replicate 5 inpW)).2.1
          (List.replicate 20 inpW)).2.1 inpW).2.2 = 1 := by
  have h1 := counter_shared_across_instances pawnSelW pawnSelW inpW inpW inpW
    5 0 (by decide) (by decide) (by decide)
  have h2 := counter_shared_across_instances pawnSelW pawnSelW inpW inpW inpW
    5 20 (by decide) (by decide) (by decide)
  exact ⟨h1.2.trans (by norm_num), h2.2.trans (by norm_num)⟩

end MulticopterSim
